import Mathlib

/-!
Verification of the contractor real-income calculator
(`src/App.tsx`, `src/constants.ts`, `src/types.ts`).

The calculation engine is embedded over ℚ: every monetary quantity in the
source is a plain product/sum of the input and fixed decimal rate constants,
so exact rational arithmetic mirrors the source formulas directly.
For the invalid-risk-class behaviour we additionally model the JavaScript
runtime semantics of the string-keyed rate object, where a lookup on an
undefined key yields `undefined` (modelled `none`) and arithmetic on it
yields `NaN` (also modelled `none`, since `NaN` propagates).
-/

/-- Risk levels I..V, from `src/types.ts` (`enum RiskLevel`). -/
inductive RiskLevel where
  | I
  | II
  | III
  | IV
  | V
deriving DecidableEq, Repr

/-- From `src/constants.ts`: `IBC_PERCENTAGE = 0.40`. -/
def IBC_PERCENTAGE : ℚ := 0.40

/-- From `src/constants.ts`: `HEALTH_RATE = 0.125`. -/
def HEALTH_RATE : ℚ := 0.125

/-- From `src/constants.ts`: `PENSION_RATE = 0.16`. -/
def PENSION_RATE : ℚ := 0.16

/-- From `src/constants.ts`: `ARL_RATES`, keyed by risk level. -/
def ARL_RATES : RiskLevel → ℚ
  | .I => 0.00522
  | .II => 0.01044
  | .III => 0.02436
  | .IV => 0.04350
  | .V => 0.06960

/-- From `src/constants.ts`: `VACATION_PROVISION_RATE = 0.0417`. -/
def VACATION_PROVISION_RATE : ℚ := 0.0417

/-- From `src/constants.ts`: `SEVERANCE_PROVISION_RATE = 0.0933`. -/
def SEVERANCE_PROVISION_RATE : ℚ := 0.0933

/-- The result record of `src/types.ts` (`interface CalculationResults`). -/
structure CalculationResults where
  contractValue : ℚ
  ibc : ℚ
  health : ℚ
  pension : ℚ
  arl : ℚ
  vacationProvision : ℚ
  severanceProvision : ℚ
  contractualRiskProvision : ℚ
  totalSocialSecurity : ℚ
  totalProvisions : ℚ
  totalCosts : ℚ
  netIncome : ℚ
  nonDisposablePercent : ℚ
deriving DecidableEq, Repr

/-- The forward calculator: the `results` memo of `src/App.tsx` (lines 34-69),
transcribed statement by statement. -/
def results (contractValue : ℚ) (riskLevel : RiskLevel)
    (contractualRiskPercent : ℚ) : CalculationResults :=
  let ibc := contractValue * IBC_PERCENTAGE
  let health := ibc * HEALTH_RATE
  let pension := ibc * PENSION_RATE
  let arl := ibc * ARL_RATES riskLevel
  let vacationProvision := contractValue * VACATION_PROVISION_RATE
  let severanceProvision := contractValue * SEVERANCE_PROVISION_RATE
  let contractualRiskRate := contractualRiskPercent / 100
  let contractualRiskProvision := contractValue * contractualRiskRate
  let totalSocialSecurity := health + pension + arl
  let totalProvisions := vacationProvision + severanceProvision + contractualRiskProvision
  let totalCosts := totalSocialSecurity + totalProvisions
  let netIncome := contractValue - totalCosts
  let nonDisposablePercent := if contractValue > 0 then (totalCosts / contractValue) * 100 else 0
  { contractValue := contractValue
    ibc := ibc
    health := health
    pension := pension
    arl := arl
    vacationProvision := vacationProvision
    severanceProvision := severanceProvision
    contractualRiskProvision := contractualRiskProvision
    totalSocialSecurity := totalSocialSecurity
    totalProvisions := totalProvisions
    totalCosts := totalCosts
    netIncome := netIncome
    nonDisposablePercent := nonDisposablePercent }

/-- The output record of the negotiation simulator (`simulatorResults` memo). -/
structure SimulatorResults where
  requiredGross : ℚ
  difference : ℚ
deriving DecidableEq, Repr

/-- The inverse simulator: the `simulatorResults` memo of `src/App.tsx`
(lines 71-82), transcribed statement by statement. -/
def simulatorResults (desiredNetIncome : ℚ) (r : CalculationResults) :
    SimulatorResults :=
  let costFactor := if r.contractValue > 0 then r.totalCosts / r.contractValue else 0
  let factorRemainder := 1 - costFactor
  let requiredGross := if factorRemainder > 0 then desiredNetIncome / factorRemainder else 0
  let difference := requiredGross - r.contractValue
  { requiredGross := requiredGross
    difference := difference }

/-- Accident-insurance rate table exactly as the spec section 4.1 lists it,
written for the refinement comparison with the source table `ARL_RATES`. -/
def specArlRate : RiskLevel → ℚ
  | .I => 0.00522
  | .II => 0.01044
  | .III => 0.02436
  | .IV => 0.04350
  | .V => 0.06960

/-- Forward algorithm transcribed from the words of spec section 4.2
(with the statutory constants of section 4.1 inlined as literals), to be
compared with the source-derived `results`. -/
def specCompute (contractValue : ℚ) (riskClass : RiskLevel)
    (contractualRiskPercent : ℚ) : CalculationResults :=
  let baseIncome := contractValue * 0.40
  let health := baseIncome * 0.125
  let pension := baseIncome * 0.16
  let accidentInsurance := baseIncome * specArlRate riskClass
  let vacationProvision := contractValue * 0.0417
  let severanceProvision := contractValue * 0.0933
  let contractualRiskProvision := contractValue * (contractualRiskPercent / 100)
  let totalSocialSecurity := health + pension + accidentInsurance
  let totalProvisions := vacationProvision + severanceProvision + contractualRiskProvision
  let totalCosts := totalSocialSecurity + totalProvisions
  let netIncome := contractValue - totalCosts
  let nonDisposablePercent := if contractValue > 0 then totalCosts / contractValue * 100 else 0
  { contractValue := contractValue
    ibc := baseIncome
    health := health
    pension := pension
    arl := accidentInsurance
    vacationProvision := vacationProvision
    severanceProvision := severanceProvision
    contractualRiskProvision := contractualRiskProvision
    totalSocialSecurity := totalSocialSecurity
    totalProvisions := totalProvisions
    totalCosts := totalCosts
    netIncome := netIncome
    nonDisposablePercent := nonDisposablePercent }

/-- Inverse-simulator algorithm transcribed from the words of spec
section 4.3, to be compared with the source-derived `simulatorResults`. -/
def specSimulate (desiredNetIncome : ℚ) (currentResult : CalculationResults) :
    SimulatorResults :=
  let costFactor :=
    if currentResult.contractValue > 0 then
      currentResult.totalCosts / currentResult.contractValue
    else 0
  let remainder := 1 - costFactor
  let requiredGross := if remainder > 0 then desiredNetIncome / remainder else 0
  { requiredGross := requiredGross
    difference := requiredGross - currentResult.contractValue }

/-- The total cost rate of the model: every cost term of `results` is
`contractValue` times a fixed rate, and this is their sum. -/
def totalRate (r : RiskLevel) (p : ℚ) : ℚ :=
  IBC_PERCENTAGE * (HEALTH_RATE + PENSION_RATE + ARL_RATES r)
    + VACATION_PROVISION_RATE + SEVERANCE_PROVISION_RATE + p / 100

theorem totalCosts_eq (c : ℚ) (r : RiskLevel) (p : ℚ) :
    (results c r p).totalCosts = c * totalRate r p := by
  simp only [results, totalRate]
  ring

theorem netIncome_eq (c : ℚ) (r : RiskLevel) (p : ℚ) :
    (results c r p).netIncome = c * (1 - totalRate r p) := by
  simp only [results, totalRate]
  ring

theorem contractValue_eq (c : ℚ) (r : RiskLevel) (p : ℚ) :
    (results c r p).contractValue = c := rfl

theorem totalRate_le (r : RiskLevel) (p : ℚ) (hp : p ≤ 20) :
    totalRate r p ≤ 0.47684 := by
  have harl : ARL_RATES r ≤ 0.06960 := by
    cases r <;> norm_num [ARL_RATES]
  simp only [totalRate, IBC_PERCENTAGE, HEALTH_RATE, PENSION_RATE,
    VACATION_PROVISION_RATE, SEVERANCE_PROVISION_RATE]
  norm_num
  linarith

theorem totalRate_lt_one (r : RiskLevel) (p : ℚ) (hp : p ≤ 20) :
    totalRate r p < 1 := by
  have := totalRate_le r p hp
  norm_num at this ⊢
  linarith

theorem totalRate_nonneg (r : RiskLevel) (p : ℚ) (hp : 0 ≤ p) :
    0 ≤ totalRate r p := by
  have harl : (0:ℚ) ≤ ARL_RATES r := by
    cases r <;> norm_num [ARL_RATES]
  simp only [totalRate, IBC_PERCENTAGE, HEALTH_RATE, PENSION_RATE,
    VACATION_PROVISION_RATE, SEVERANCE_PROVISION_RATE]
  norm_num
  linarith

/-!
JavaScript runtime model of the rate lookup. In `src/constants.ts` the rate
table is a plain object keyed by the string values of `enum RiskLevel`; in
`src/App.tsx` line 39 the lookup `ARL_RATES[riskLevel]` on a key that is not
one of the five defined levels evaluates to `undefined` (modelled `none`),
and JavaScript arithmetic involving `undefined` or `NaN` yields `NaN`
(also modelled `none`: `NaN` propagates through `+`, `-`, `*`, `/`).
-/

/-- String-keyed lookup into the `ARL_RATES` object of `src/constants.ts`:
the five enum string values map to their rates, any other key to
`undefined` (`none`). -/
def ARL_RATES_get (key : String) : Option ℚ :=
  if key = "I" then some 0.00522
  else if key = "II" then some 0.01044
  else if key = "III" then some 0.02436
  else if key = "IV" then some 0.04350
  else if key = "V" then some 0.06960
  else none

/-- JavaScript multiplication with `NaN`/`undefined` propagation. -/
def jsMul : Option ℚ → Option ℚ → Option ℚ
  | some a, some b => some (a * b)
  | _, _ => none

/-- JavaScript addition with `NaN`/`undefined` propagation. -/
def jsAdd : Option ℚ → Option ℚ → Option ℚ
  | some a, some b => some (a + b)
  | _, _ => none

/-- JavaScript subtraction with `NaN`/`undefined` propagation. -/
def jsSub : Option ℚ → Option ℚ → Option ℚ
  | some a, some b => some (a - b)
  | _, _ => none

/-- JavaScript division with `NaN`/`undefined` propagation; division by zero
yields a non-finite value, also modelled `none` (the source only divides
under a positivity guard, so that case is never reached there). -/
def jsDiv : Option ℚ → Option ℚ → Option ℚ
  | some a, some b => if b = 0 then none else some (a / b)
  | _, _ => none

/-- Result record of the forward calculation under JavaScript semantics:
each field is a JS number, `none` standing for `NaN`. -/
structure JSCalculationResults where
  contractValue : Option ℚ
  ibc : Option ℚ
  health : Option ℚ
  pension : Option ℚ
  arl : Option ℚ
  vacationProvision : Option ℚ
  severanceProvision : Option ℚ
  contractualRiskProvision : Option ℚ
  totalSocialSecurity : Option ℚ
  totalProvisions : Option ℚ
  totalCosts : Option ℚ
  netIncome : Option ℚ
  nonDisposablePercent : Option ℚ
deriving DecidableEq, Repr

/-- The `results` memo of `src/App.tsx` under JavaScript runtime semantics,
with the risk level passed as its string value so that lookups on undefined
risk classes can be examined. -/
def resultsJS (contractValue : ℚ) (riskKey : String)
    (contractualRiskPercent : ℚ) : JSCalculationResults :=
  let ibc : Option ℚ := some (contractValue * IBC_PERCENTAGE)
  let health := jsMul ibc (some HEALTH_RATE)
  let pension := jsMul ibc (some PENSION_RATE)
  let arl := jsMul ibc (ARL_RATES_get riskKey)
  let vacationProvision : Option ℚ := some (contractValue * VACATION_PROVISION_RATE)
  let severanceProvision : Option ℚ := some (contractValue * SEVERANCE_PROVISION_RATE)
  let contractualRiskProvision : Option ℚ := some (contractValue * (contractualRiskPercent / 100))
  let totalSocialSecurity := jsAdd (jsAdd health pension) arl
  let totalProvisions := jsAdd (jsAdd vacationProvision severanceProvision) contractualRiskProvision
  let totalCosts := jsAdd totalSocialSecurity totalProvisions
  let netIncome := jsSub (some contractValue) totalCosts
  let nonDisposablePercent :=
    if contractValue > 0 then jsMul (jsDiv totalCosts (some contractValue)) (some 100)
    else some 0
  { contractValue := some contractValue
    ibc := ibc
    health := health
    pension := pension
    arl := arl
    vacationProvision := vacationProvision
    severanceProvision := severanceProvision
    contractualRiskProvision := contractualRiskProvision
    totalSocialSecurity := totalSocialSecurity
    totalProvisions := totalProvisions
    totalCosts := totalCosts
    netIncome := netIncome
    nonDisposablePercent := nonDisposablePercent }

/-!
Claim theorems.
-/

/-- C1: for every input with contractValue ≥ 0, riskClass among I..V and
contractualRiskPercent in [0,20], the forward calculator returns exactly the
record given by the spec algorithm with the statutory constants. -/
theorem C1_forward_matches_spec (c : ℚ) (r : RiskLevel) (p : ℚ)
    (hc : 0 ≤ c) (hp0 : 0 ≤ p) (hp : p ≤ 20) :
    results c r p = specCompute c r p := by
  cases r <;> rfl

/-- Witness for C1 at contractValue 3200000, risk class I, percent 10. -/
theorem C1_forward_matches_spec_witness :
    (0:ℚ) ≤ 3200000 ∧ (0:ℚ) ≤ 10 ∧ (10:ℚ) ≤ 20 ∧
      results 3200000 .I 10 = specCompute 3200000 .I 10 :=
  ⟨by norm_num, by norm_num, by norm_num,
    C1_forward_matches_spec 3200000 .I 10 (by norm_num) (by norm_num) (by norm_num)⟩

/-- C2: for every desiredNetIncome and every CalculationResults record, the
inverse simulator returns exactly the requiredGross and difference given by
the spec algorithm (costFactor with zero-contract guard, remainder, and the
degenerate remainder branch). -/
theorem C2_simulator_matches_spec (d : ℚ) (r : CalculationResults) :
    simulatorResults d r = specSimulate d r := rfl

/-- C3: for every input with contractValue ≥ 0, the two conservation
identities hold exactly: totalCosts = totalSocialSecurity + totalProvisions
and netIncome + totalCosts = contractValue. -/
theorem C3_conservation (c : ℚ) (r : RiskLevel) (p : ℚ) (hc : 0 ≤ c) :
    (results c r p).totalCosts
        = (results c r p).totalSocialSecurity + (results c r p).totalProvisions ∧
      (results c r p).netIncome + (results c r p).totalCosts = c := by
  constructor
  · rfl
  · simp only [results]
    ring

/-- Witness for C3 at contractValue 3200000, risk class II, percent 5. -/
theorem C3_conservation_witness :
    (0:ℚ) ≤ 3200000 ∧
      ((results 3200000 .II 5).totalCosts
          = (results 3200000 .II 5).totalSocialSecurity
            + (results 3200000 .II 5).totalProvisions ∧
        (results 3200000 .II 5).netIncome + (results 3200000 .II 5).totalCosts
          = 3200000) :=
  ⟨by norm_num, C3_conservation 3200000 .II 5 (by norm_num)⟩

/-- C4: round-trip inverse consistency: for contractValue > 0 and
contractualRiskPercent in [0,20], feeding the computed netIncome back into
the simulator recovers the contract value exactly. -/
theorem C4_round_trip (c : ℚ) (r : RiskLevel) (p : ℚ)
    (hc : 0 < c) (hp0 : 0 ≤ p) (hp : p ≤ 20) :
    (simulatorResults (results c r p).netIncome (results c r p)).requiredGross = c := by
  have hK : totalRate r p < 1 := totalRate_lt_one r p hp
  have hrem : (0:ℚ) < 1 - totalRate r p := by linarith
  simp only [simulatorResults, contractValue_eq, totalCosts_eq, netIncome_eq, if_pos hc]
  rw [mul_div_cancel_left₀ _ (ne_of_gt hc), if_pos hrem,
    mul_div_cancel_right₀ _ (ne_of_gt hrem)]

/-- Witness for C4 at contractValue 3200000, risk class I, percent 10. -/
theorem C4_round_trip_witness :
    (0:ℚ) < 3200000 ∧ (0:ℚ) ≤ 10 ∧ (10:ℚ) ≤ 20 ∧
      (simulatorResults (results 3200000 .I 10).netIncome
        (results 3200000 .I 10)).requiredGross = 3200000 :=
  ⟨by norm_num, by norm_num, by norm_num,
    C4_round_trip 3200000 .I 10 (by norm_num) (by norm_num) (by norm_num)⟩

/-- C5 counterexample: the lookup on the undefined risk class "VI" yields
`undefined` and the forward calculation does not fail: it returns a record
whose ARL-dependent fields are NaN (modelled `none`) while the
ARL-independent fields stay numeric — no InvalidInput error is raised
anywhere in the code. -/
theorem C5_counterexample :
    ARL_RATES_get "VI" = none ∧
      (resultsJS 1000000 "VI" 10).arl = none ∧
      (resultsJS 1000000 "VI" 10).netIncome = none ∧
      (resultsJS 1000000 "VI" 10).nonDisposablePercent = none ∧
      (resultsJS 1000000 "VI" 10).health = some 50000 := by
  refine ⟨rfl, rfl, rfl, rfl, ?_⟩
  show jsMul (some ((1000000:ℚ) * IBC_PERCENTAGE)) (some HEALTH_RATE) = some 50000
  norm_num [jsMul, IBC_PERCENTAGE, HEALTH_RATE]

/-- C5 amended: a rate-table lookup with an undefined risk class returns
`undefined` — never a default rate, since every key either maps to one of
the five statutory rates or to nothing — and the forward calculation then
silently propagates NaN through every ARL-dependent field instead of
failing with an InvalidInput error. -/
theorem C5_lookup_no_default_nan (key : String) (c p : ℚ)
    (hkey : ARL_RATES_get key = none) (hc : 0 < c) :
    (∀ q : ℚ, ARL_RATES_get key ≠ some q) ∧
      (resultsJS c key p).arl = none ∧
      (resultsJS c key p).totalSocialSecurity = none ∧
      (resultsJS c key p).totalCosts = none ∧
      (resultsJS c key p).netIncome = none ∧
      (resultsJS c key p).nonDisposablePercent = none ∧
      (resultsJS c key p).health = some (c * IBC_PERCENTAGE * HEALTH_RATE) := by
  refine ⟨by simp [hkey], ?_, ?_, ?_, ?_, ?_, ?_⟩ <;>
    simp [resultsJS, hkey, jsMul, jsAdd, jsSub, jsDiv, hc]

/-- Witness for the amended C5 at key "VI", contractValue 1000000, percent 10. -/
theorem C5_lookup_no_default_nan_witness :
    ARL_RATES_get "VI" = none ∧ (0:ℚ) < 1000000 ∧
      ((∀ q : ℚ, ARL_RATES_get "VI" ≠ some q) ∧
        (resultsJS 1000000 "VI" 10).arl = none ∧
        (resultsJS 1000000 "VI" 10).totalSocialSecurity = none ∧
        (resultsJS 1000000 "VI" 10).totalCosts = none ∧
        (resultsJS 1000000 "VI" 10).netIncome = none ∧
        (resultsJS 1000000 "VI" 10).nonDisposablePercent = none ∧
        (resultsJS 1000000 "VI" 10).health
          = some (1000000 * IBC_PERCENTAGE * HEALTH_RATE)) :=
  ⟨rfl, by norm_num, C5_lookup_no_default_nan "VI" 1000000 10 rfl (by norm_num)⟩

/-- C6 counterexample: at contractValue −1000000 (risk class I, percent 10)
the forward calculator neither raises an error nor clamps to 0: it returns
netIncome −648912, a record different from the one at contract value 0; and
at desiredNetIncome −100 the simulator silently returns a negative
requiredGross rather than rejecting or clamping the negative input. -/
theorem C6_counterexample :
    (results (-1000000) .I 10).netIncome = -648912 ∧
      results (-1000000) .I 10 ≠ results 0 .I 10 ∧
      (simulatorResults (-100) (results 3200000 .I 10)).requiredGross < 0 := by
  refine ⟨by norm_num [results, IBC_PERCENTAGE, HEALTH_RATE, PENSION_RATE,
      ARL_RATES, VACATION_PROVISION_RATE, SEVERANCE_PROVISION_RATE], ?_, ?_⟩
  · intro h
    have hn := congrArg CalculationResults.netIncome h
    norm_num [results, IBC_PERCENTAGE, HEALTH_RATE, PENSION_RATE,
      ARL_RATES, VACATION_PROVISION_RATE, SEVERANCE_PROVISION_RATE] at hn
  · norm_num [results, simulatorResults, IBC_PERCENTAGE, HEALTH_RATE,
      PENSION_RATE, ARL_RATES, VACATION_PROVISION_RATE, SEVERANCE_PROVISION_RATE]

/-- C6 amended: the engine performs no negative-input handling at all: for
contractValue < 0 the forward calculator computes every field by the same
linear formulas (so netIncome = contractValue·(1 − totalRate) is strictly
negative), with nonDisposablePercent falling into the zero-division guard,
and for desiredNetIncome < 0 the simulator silently computes with it (on a
non-positive-contract result the costFactor guard makes requiredGross equal
the negative desired income). -/
theorem C6_no_negative_handling (c d : ℚ) (r : RiskLevel) (p : ℚ)
    (hc : c < 0) (hd : d < 0) (hp0 : 0 ≤ p) (hp : p ≤ 20) :
    (results c r p).netIncome = c * (1 - totalRate r p) ∧
      (results c r p).netIncome < 0 ∧
      (results c r p).nonDisposablePercent = 0 ∧
      (simulatorResults d (results c r p)).requiredGross = d ∧
      (simulatorResults d (results c r p)).requiredGross < 0 := by
  have hK : totalRate r p < 1 := totalRate_lt_one r p hp
  have hrem : (0:ℚ) < 1 - totalRate r p := by linarith
  have hng : ¬ (c > 0) := by linarith
  refine ⟨netIncome_eq c r p, ?_, ?_, ?_, ?_⟩
  · rw [netIncome_eq]
    exact mul_neg_of_neg_of_pos hc hrem
  · simp only [results, if_neg hng]
  · simp only [simulatorResults, contractValue_eq, if_neg hng]
    norm_num
  · simp only [simulatorResults, contractValue_eq, if_neg hng]
    norm_num
    linarith

/-- Witness for the amended C6 at contractValue −1000000, desired −100,
risk class I, percent 10. -/
theorem C6_no_negative_handling_witness :
    (-1000000 : ℚ) < 0 ∧ (-100 : ℚ) < 0 ∧ (0:ℚ) ≤ 10 ∧ (10:ℚ) ≤ 20 ∧
      ((results (-1000000) .I 10).netIncome = -1000000 * (1 - totalRate .I 10) ∧
        (results (-1000000) .I 10).netIncome < 0 ∧
        (results (-1000000) .I 10).nonDisposablePercent = 0 ∧
        (simulatorResults (-100) (results (-1000000) .I 10)).requiredGross = -100 ∧
        (simulatorResults (-100) (results (-1000000) .I 10)).requiredGross < 0) :=
  ⟨by norm_num, by norm_num, by norm_num, by norm_num,
    C6_no_negative_handling (-1000000) (-100) .I 10
      (by norm_num) (by norm_num) (by norm_num) (by norm_num)⟩

/-- C7: at contractValue 0, for every risk class and every contractual risk
percent, every field of the result is 0 — nonDisposablePercent through the
explicit guard branch, never via a division by the zero contract value. -/
theorem C7_zero_contract (r : RiskLevel) (p : ℚ) :
    results 0 r p =
      { contractValue := 0, ibc := 0, health := 0, pension := 0, arl := 0,
        vacationProvision := 0, severanceProvision := 0,
        contractualRiskProvision := 0, totalSocialSecurity := 0,
        totalProvisions := 0, totalCosts := 0, netIncome := 0,
        nonDisposablePercent := 0 } := by
  simp [results, CalculationResults.mk.injEq]

/-- C8: for fixed risk class and contractual risk percent, netIncome is
strictly increasing in contractValue on pairs v1 < v2 (both ≥ 0) at which
the cost ratio totalCosts/contractValue is below 1. -/
theorem C8_monotonic (v1 v2 : ℚ) (r : RiskLevel) (p : ℚ)
    (h0 : 0 ≤ v1) (h12 : v1 < v2)
    (hr1 : (results v1 r p).totalCosts / v1 < 1)
    (hr2 : (results v2 r p).totalCosts / v2 < 1) :
    (results v1 r p).netIncome < (results v2 r p).netIncome := by
  have hv2 : 0 < v2 := lt_of_le_of_lt h0 h12
  have h2 : (results v2 r p).totalCosts / v2 = totalRate r p := by
    rw [totalCosts_eq]
    exact mul_div_cancel_left₀ _ (ne_of_gt hv2)
  rw [h2] at hr2
  rw [netIncome_eq, netIncome_eq]
  exact mul_lt_mul_of_pos_right h12 (by linarith)

/-- Witness for C8 at v1 = 1000000, v2 = 2000000, risk class I, percent 10. -/
theorem C8_monotonic_witness :
    (0:ℚ) ≤ 1000000 ∧ (1000000:ℚ) < 2000000 ∧
      (results 1000000 .I 10).totalCosts / 1000000 < 1 ∧
      (results 2000000 .I 10).totalCosts / 2000000 < 1 ∧
      (results 1000000 .I 10).netIncome < (results 2000000 .I 10).netIncome :=
  ⟨by norm_num, by norm_num,
    by norm_num [results, IBC_PERCENTAGE, HEALTH_RATE, PENSION_RATE,
      ARL_RATES, VACATION_PROVISION_RATE, SEVERANCE_PROVISION_RATE],
    by norm_num [results, IBC_PERCENTAGE, HEALTH_RATE, PENSION_RATE,
      ARL_RATES, VACATION_PROVISION_RATE, SEVERANCE_PROVISION_RATE],
    C8_monotonic 1000000 2000000 .I 10 (by norm_num) (by norm_num)
      (by norm_num [results, IBC_PERCENTAGE, HEALTH_RATE, PENSION_RATE,
        ARL_RATES, VACATION_PROVISION_RATE, SEVERANCE_PROVISION_RATE])
      (by norm_num [results, IBC_PERCENTAGE, HEALTH_RATE, PENSION_RATE,
        ARL_RATES, VACATION_PROVISION_RATE, SEVERANCE_PROVISION_RATE])⟩

/-- C9: the concrete scenario contractValue 3200000, risk class I, percent
10 yields exactly the figures of the spec, with nonDisposablePercent exactly
35.1088 (within 0.01 of the quoted 35.11). -/
theorem C9_concrete_scenario :
    (results 3200000 .I 10).ibc = 1280000 ∧
      (results 3200000 .I 10).health = 160000 ∧
      (results 3200000 .I 10).pension = 204800 ∧
      (results 3200000 .I 10).arl = 6681.6 ∧
      (results 3200000 .I 10).totalSocialSecurity = 371481.6 ∧
      (results 3200000 .I 10).vacationProvision = 133440 ∧
      (results 3200000 .I 10).severanceProvision = 298560 ∧
      (results 3200000 .I 10).contractualRiskProvision = 320000 ∧
      (results 3200000 .I 10).totalProvisions = 752000 ∧
      (results 3200000 .I 10).totalCosts = 1123481.6 ∧
      (results 3200000 .I 10).netIncome = 2076518.4 ∧
      (results 3200000 .I 10).nonDisposablePercent = 35.1088 ∧
      |(results 3200000 .I 10).nonDisposablePercent - 35.11| < 0.01 := by
  norm_num [results, IBC_PERCENTAGE, HEALTH_RATE, PENSION_RATE, ARL_RATES,
    VACATION_PROVISION_RATE, SEVERANCE_PROVISION_RATE, abs_lt]

/-- C10: for contractValue > 0 and percent in [0,20] the cost ratio is at
most 0.47684, strictly below 1; hence netIncome is positive,
nonDisposablePercent is below 100, and the simulator always takes the
non-degenerate branch, returning desiredNetIncome divided by the positive
remainder. -/
theorem C10_cost_ratio_bound (c : ℚ) (r : RiskLevel) (p d : ℚ)
    (hc : 0 < c) (hp0 : 0 ≤ p) (hp : p ≤ 20) :
    (results c r p).totalCosts / c ≤ 0.47684 ∧
      (results c r p).totalCosts / c < 1 ∧
      0 < (results c r p).netIncome ∧
      (results c r p).nonDisposablePercent < 100 ∧
      (simulatorResults d (results c r p)).requiredGross
        = d / (1 - (results c r p).totalCosts / c) := by
  have hK : totalRate r p < 1 := totalRate_lt_one r p hp
  have hKle : totalRate r p ≤ 0.47684 := totalRate_le r p hp
  have hrem : (0:ℚ) < 1 - totalRate r p := by linarith
  have hratio : (results c r p).totalCosts / c = totalRate r p := by
    rw [totalCosts_eq]
    exact mul_div_cancel_left₀ _ (ne_of_gt hc)
  refine ⟨by rw [hratio]; exact hKle, by rw [hratio]; exact hK, ?_, ?_, ?_⟩
  · rw [netIncome_eq]
    exact mul_pos hc hrem
  · have : (results c r p).nonDisposablePercent
        = (results c r p).totalCosts / c * 100 := by
      simp only [results, if_pos hc]
    rw [this, hratio]
    linarith
  · simp only [simulatorResults, contractValue_eq, if_pos hc, hratio, if_pos hrem]

/-- Witness for C10 at contractValue 3200000, risk class I, percent 10,
desired net income 2800000. -/
theorem C10_cost_ratio_bound_witness :
    (0:ℚ) < 3200000 ∧ (0:ℚ) ≤ 10 ∧ (10:ℚ) ≤ 20 ∧
      ((results 3200000 .I 10).totalCosts / 3200000 ≤ 0.47684 ∧
        (results 3200000 .I 10).totalCosts / 3200000 < 1 ∧
        0 < (results 3200000 .I 10).netIncome ∧
        (results 3200000 .I 10).nonDisposablePercent < 100 ∧
        (simulatorResults 2800000 (results 3200000 .I 10)).requiredGross
          = 2800000 / (1 - (results 3200000 .I 10).totalCosts / 3200000)) :=
  ⟨by norm_num, by norm_num, by norm_num,
    C10_cost_ratio_bound 3200000 .I 10 2800000
      (by norm_num) (by norm_num) (by norm_num)⟩
